import Mathlib

/-
Verification of the force-directed bubble layout core of the
macro-sentiment-agent repository, as implemented in
src/components/AdvancedBubbleCanvas.tsx.  Machine floating point is
modelled by exact real arithmetic; colors (hex strings and rgb triples)
are modelled over the rationals, which the color arithmetic of the
source never leaves.
-/

namespace MacroSentiment

/-- Model of the TopicSentiment record (src/types/sentiment.ts), restricted
to the fields the canvas reads: topicId, sentiment, volume. -/
structure Topic where
  topicId : String
  sentiment : ℝ
  volume : ℝ
deriving Inhabited

/-- Model of the Vector2D interface of AdvancedBubbleCanvas.tsx. -/
structure Vector2D where
  x : ℝ
  y : ℝ
deriving Inhabited

/-- Model of the Bubble interface of AdvancedBubbleCanvas.tsx (lines 10-31). -/
structure Bubble where
  id : String
  topic : Topic
  x : ℝ
  y : ℝ
  vx : ℝ
  vy : ℝ
  radius : ℝ
  targetRadius : ℝ
  color : String
  targetColor : String
  currentSentiment : ℝ
  targetSentiment : ℝ
  currentVolume : ℝ
  targetVolume : ℝ
  isDragging : Bool
  dragOffsetX : ℝ
  dragOffsetY : ℝ
  mass : ℝ
  lastUpdateTime : ℝ
  index : ℕ
deriving Inhabited

noncomputable section

open Classical in
/-- Shorthand for the classical decidability used to model numeric branches. -/
def PHYSICS_CONFIG_damping : ℝ := 0.98

def PHYSICS_CONFIG_collisionDamping : ℝ := 0.3
def PHYSICS_CONFIG_centeringForce : ℝ := 0.00005
def PHYSICS_CONFIG_separationForce : ℝ := 0.02
def PHYSICS_CONFIG_randomForce : ℝ := 0.0001
def PHYSICS_CONFIG_minRadius : ℝ := 15
def PHYSICS_CONFIG_maxRadius : ℝ := 80
def PHYSICS_CONFIG_boundaryPadding : ℝ := 30
def PHYSICS_CONFIG_dragStrength : ℝ := 0.8
def PHYSICS_CONFIG_maxVelocity : ℝ := 0.8
def PHYSICS_CONFIG_repulsionDistance : ℝ := 1.2
def PHYSICS_CONFIG_driftStrength : ℝ := 0.00005
def PHYSICS_CONFIG_sentimentSmoothingSpeed : ℝ := 0.02
def PHYSICS_CONFIG_volumeSmoothingSpeed : ℝ := 0.05
def PHYSICS_CONFIG_radiusSmoothingSpeed : ℝ := 0.08

/-- getSentimentColor (AdvancedBubbleCanvas.tsx lines 75-81). -/
def getSentimentColor (sentiment : ℝ) : String :=
  if sentiment > 0.5 then "#15803d"
  else if sentiment > 0.1 then "#22c55e"
  else if sentiment < -0.5 then "#991b1b"
  else if sentiment < -0.1 then "#ef4444"
  else "#6b7280"

/-- calculateRadius (AdvancedBubbleCanvas.tsx lines 84-87). -/
def calculateRadius (volume maxVolume : ℝ) : ℝ :=
  let normalized := Real.sqrt (volume / maxVolume)
  PHYSICS_CONFIG_minRadius +
    (PHYSICS_CONFIG_maxRadius - PHYSICS_CONFIG_minRadius) * normalized

/-- distance (AdvancedBubbleCanvas.tsx lines 157-161). -/
def distance (a b : Vector2D) : ℝ :=
  let dx := a.x - b.x
  let dy := a.y - b.y
  Real.sqrt (dx * dx + dy * dy)

/-- normalize (AdvancedBubbleCanvas.tsx lines 163-166). -/
def normalize (v : Vector2D) : Vector2D :=
  let mag := Real.sqrt (v.x * v.x + v.y * v.y)
  if mag > 0 then ⟨v.x / mag, v.y / mag⟩ else ⟨0, 0⟩

/-- lerp (AdvancedBubbleCanvas.tsx lines 169-171). -/
def lerp (current target speed : ℝ) : ℝ :=
  current + (target - current) * speed

/-- Model of the JavaScript expression `a || b` on numbers, as used with the
optional-chaining defaults of initializeBubbles: 0 is falsy, so it yields
b whenever a is 0. -/
def jsOr (a b : ℝ) : ℝ := if a = 0 then b else a

/-- Model of `a || b` where a is a natural-number index: 0 is falsy. -/
def jsOrNat (a b : ℕ) : ℕ := if a = 0 then b else a

/-- Model of `a || b` on strings: the empty string is falsy. -/
def jsOrStr (a b : String) : String := if a = "" then b else a

/-- Model of `Math.max(...xs, 1)` (AdvancedBubbleCanvas.tsx lines 99 and 332). -/
def maxWith1 (xs : List ℝ) : ℝ := xs.foldr max 1

end

/-- Result record of hexToRgb (AdvancedBubbleCanvas.tsx line 173): the
parsed red, green and blue components. -/
structure Rgb where
  r : ℕ
  g : ℕ
  b : ℕ
deriving DecidableEq, Inhabited

/-- Value of one case-insensitive hex digit, i.e. one character of the
character class of the regex on line 174. -/
def hexDigit? (c : Char) : Option ℕ :=
  if '0' ≤ c ∧ c ≤ '9' then some (c.toNat - Char.toNat '0')
  else if 'a' ≤ c ∧ c ≤ 'f' then some (c.toNat - Char.toNat 'a' + 10)
  else if 'A' ≤ c ∧ c ≤ 'F' then some (c.toNat - Char.toNat 'A' + 10)
  else none

/-- Model of the anchored regex match of hexToRgb (line 174): an optional
leading hash sign followed by exactly six case-insensitive hex digits, the
three pairs parsed in base 16 as in lines 176-178. -/
def hexMatch? (s : String) : Option Rgb :=
  let cs := match s.data with
    | '#' :: rest => rest
    | l => l
  match cs with
  | [c1, c2, c3, c4, c5, c6] =>
    match hexDigit? c1, hexDigit? c2, hexDigit? c3,
        hexDigit? c4, hexDigit? c5, hexDigit? c6 with
    | some h1, some l1, some h2, some l2, some h3, some l3 =>
        some ⟨16 * h1 + l1, 16 * h2 + l2, 16 * h3 + l3⟩
    | _, _, _, _, _, _ => none
  | _ => none

/-- hexToRgb (AdvancedBubbleCanvas.tsx lines 173-180): a failed match
yields black. -/
def hexToRgb (s : String) : Rgb := (hexMatch? s).getD ⟨0, 0, 0⟩

/-- Model of Number.toString(16) on a nonnegative integer: most-significant
first, lowercase hex digits. -/
def natToHex (n : ℕ) : List Char :=
  if _h : n < 16 then [Nat.digitChar n]
  else natToHex (n / 16) ++ [Nat.digitChar (n % 16)]
termination_by n
decreasing_by exact Nat.div_lt_self (by omega) (by norm_num)

/-- Model of Math.round: round half toward positive infinity. -/
def jsRound (q : ℚ) : ℤ := ⌊q + 1 / 2⌋

/-- rgbToHex (AdvancedBubbleCanvas.tsx lines 182-184):
(1 << 24) + (round r << 16) + (round g << 8) + round b rendered in base 16
with the leading digit sliced off and a hash sign prepended; 16777216,
65536 and 256 are the shifted place values. The source's color arithmetic
never leaves the rationals, so components are modelled as rationals. -/
def rgbToHex (r g b : ℚ) : String :=
  let n : ℕ := 16777216 + (jsRound r).toNat * 65536 +
    (jsRound g).toNat * 256 + (jsRound b).toNat
  ⟨'#' :: (natToHex n).drop 1⟩

/-- The lerp helper of line 169 specialised to the rational color
arithmetic of blendColors. -/
def lerpQ (current target speed : ℚ) : ℚ :=
  current + (target - current) * speed

/-- blendColors (AdvancedBubbleCanvas.tsx lines 186-195). -/
def blendColors (color1 color2 : String) (factor : ℚ) : String :=
  let rgb1 := hexToRgb color1
  let rgb2 := hexToRgb color2
  let r := lerpQ rgb1.r rgb2.r factor
  let g := lerpQ rgb1.g rgb2.g factor
  let b := lerpQ rgb1.b rgb2.b factor
  rgbToHex r g b

noncomputable section

/-- Neutral bubble record used as the base of concrete test bubbles. -/
def baseBubble : Bubble :=
  { id := "", topic := ⟨"", 0, 0⟩, x := 0, y := 0, vx := 0, vy := 0,
    radius := 0, targetRadius := 0, color := "", targetColor := "",
    currentSentiment := 0, targetSentiment := 0, currentVolume := 0,
    targetVolume := 0, isDragging := false, dragOffsetX := 0,
    dragOffsetY := 0, mass := 0, lastUpdateTime := 0, index := 0 }

/-- Model of bubblesRef.current.get(topicId) on the insertion-ordered map. -/
def mapGet (id : String) : List Bubble → Option Bubble
  | [] => none
  | b :: bs => if b.id = id then some b else mapGet id bs

/-- Body of the forEach of initializeBubbles (AdvancedBubbleCanvas.tsx
lines 102-150) for one topic at forEach position i; randX i and randY i
stand for the two Math.random() draws of the fresh-placement branch. -/
def initBubble (width height : ℝ) (randX randY : ℕ → ℝ) (now : ℝ)
    (maxVolume : ℝ) (old : List Bubble) (i : ℕ) (topic : Topic) : Bubble :=
  let existingBubble := mapGet topic.topicId old
  let radius := calculateRadius topic.volume maxVolume
  let pos : Vector2D :=
    match existingBubble with
    | some eb => ⟨eb.x, eb.y⟩
    | none =>
      let margin := radius + PHYSICS_CONFIG_boundaryPadding
      let x0 := margin + randX i * (width - 2 * margin)
      let y0 := margin + randY i * (height - 2 * margin)
      let centerBias := min (radius / PHYSICS_CONFIG_maxRadius) 0.3
      let centerX := width / 2
      let centerY := height / 2
      ⟨x0 + (centerX - x0) * centerBias * 0.3,
       y0 + (centerY - y0) * centerBias * 0.3⟩
  let targetColor := getSentimentColor topic.sentiment
  { id := topic.topicId
    topic := topic
    x := pos.x
    y := pos.y
    vx := match existingBubble with
      | some eb => jsOr eb.vx 0
      | none => 0
    vy := match existingBubble with
      | some eb => jsOr eb.vy 0
      | none => 0
    radius := match existingBubble with
      | some eb => jsOr eb.radius radius
      | none => radius
    targetRadius := radius
    color := match existingBubble with
      | some eb => jsOrStr eb.color targetColor
      | none => targetColor
    targetColor := targetColor
    currentSentiment := match existingBubble with
      | some eb => jsOr eb.currentSentiment topic.sentiment
      | none => topic.sentiment
    targetSentiment := topic.sentiment
    currentVolume := match existingBubble with
      | some eb => jsOr eb.currentVolume topic.volume
      | none => topic.volume
    targetVolume := topic.volume
    isDragging := match existingBubble with
      | some eb => eb.isDragging || false
      | none => false
    dragOffsetX := 0
    dragOffsetY := 0
    mass := radius * radius
    lastUpdateTime := now
    index := match existingBubble with
      | some eb => jsOrNat eb.index i
      | none => i }

/-- The forEach of initializeBubbles, threading the position index. -/
def initBubblesGo (width height : ℝ) (randX randY : ℕ → ℝ) (now : ℝ)
    (maxVolume : ℝ) (old : List Bubble) : ℕ → List Topic → List Bubble
  | _, [] => []
  | i, t :: ts =>
      initBubble width height randX randY now maxVolume old i t ::
        initBubblesGo width height randX randY now maxVolume old (i + 1) ts

/-- initializeBubbles (AdvancedBubbleCanvas.tsx lines 98-154): the fresh
map is built in topics order, so the result list is the new map in
insertion order. -/
def initializeBubbles (topics : List Topic) (old : List Bubble)
    (width height : ℝ) (randX randY : ℕ → ℝ) (now : ℝ) : List Bubble :=
  let maxVolume := maxWith1 (topics.map Topic.volume)
  initBubblesGo width height randX randY now maxVolume old 0 topics

/-- The hit-test loop shared by handleMouseDown (lines 419-435) and
handleClick (lines 490-496): scan the bubbles in map insertion order and
return the first whose center lies within its radius of the pointer. -/
def hitTest (p : Vector2D) : List Bubble → Option Bubble
  | [] => none
  | b :: bs =>
      if distance p ⟨b.x, b.y⟩ ≤ b.radius then some b else hitTest p bs

/-- The color smoothing speed of PHYSICS_CONFIG, kept rational because the
color arithmetic is modelled over the rationals. -/
def PHYSICS_CONFIG_colorSmoothingSpeed : ℚ := 0.03

/-- Ambient inputs of one updatePhysics tick: the elapsed-time delta, the
Date.now()·0.001 clock, the last mouse position, the canvas dimensions and
the Math.random() draws of each free bubble. -/
structure PhysEnv where
  deltaTime : ℝ
  time : ℝ
  mouseX : ℝ
  mouseY : ℝ
  width : ℝ
  height : ℝ
  randX : ℕ → ℝ
  randY : ℕ → ℝ

/-- Result of the inner separation forEach for one bubble: the accumulated
force components, the (possibly pushed) current bubble, and the array with
the pushes applied to the other entries. -/
structure SepResult where
  fx : ℝ
  fy : ℝ
  b : Bubble
  others : List Bubble

/-- The inner forEach of updatePhysics (AdvancedBubbleCanvas.tsx lines
235-262): accumulate the separation force on the current bubble and, on
actual overlap, apply the immediate positional push to both the current
bubble and the other array entry, in array order. -/
def separationPass (b : Bubble) (others : List Bubble) (fx fy : ℝ) :
    SepResult :=
  match others with
  | [] => ⟨fx, fy, b, []⟩
  | o :: rest =>
    if o.id = b.id then
      let r := separationPass b rest fx fy
      ⟨r.fx, r.fy, r.b, o :: r.others⟩
    else
      let dist := distance ⟨b.x, b.y⟩ ⟨o.x, o.y⟩
      let safeDistance :=
        (b.radius + o.radius) * PHYSICS_CONFIG_repulsionDistance
      if dist < safeDistance ∧ dist > 0 then
        let separationStrength := ((safeDistance - dist) / safeDistance) ^ 2
        let direction := normalize ⟨b.x - o.x, b.y - o.y⟩
        let force := separationStrength * PHYSICS_CONFIG_separationForce
        let fx1 := fx + direction.x * force
        let fy1 := fy + direction.y * force
        if dist < b.radius + o.radius then
          let overlap := (b.radius + o.radius - dist) * 0.5
          let pushX := direction.x * overlap * 0.02
          let pushY := direction.y * overlap * 0.02
          let b1 := { b with x := b.x + pushX, y := b.y + pushY }
          let o1 := { o with x := o.x - pushX, y := o.y - pushY }
          let r := separationPass b1 rest fx1 fy1
          ⟨r.fx, r.fy, r.b, o1 :: r.others⟩
        else
          let r := separationPass b rest fx1 fy1
          ⟨r.fx, r.fy, r.b, o :: r.others⟩
      else
        let r := separationPass b rest fx fy
        ⟨r.fx, r.fy, r.b, o :: r.others⟩

/-- The dragged branch of updatePhysics (lines 204-209): snap to the
pointer minus the drag offset and decay velocity. -/
def dragMove (env : PhysEnv) (b : Bubble) : Bubble :=
  { b with
    x := env.mouseX - b.dragOffsetX
    y := env.mouseY - b.dragOffsetY
    vx := b.vx * 0.95
    vy := b.vy * 0.95 }

/-- The free branch of updatePhysics (lines 211-286): organic drift, weak
centering, separation (with overlap pushes on the other array entries),
random jitter, velocity integration with damping and speed clamp, and
position integration.  Returns the moved bubble together with the array
entries after the pushes. -/
def freeMove (env : PhysEnv) (i : ℕ) (b : Bubble) (bs : List Bubble) :
    Bubble × List Bubble :=
  let fx0 := Real.sin (env.time * 0.3 + b.index * 0.7) *
    PHYSICS_CONFIG_driftStrength
  let fy0 := Real.cos (env.time * 0.2 + b.index * 1.1) *
    PHYSICS_CONFIG_driftStrength
  let centerX := env.width / 2
  let centerY := env.height / 2
  let centerDistance := distance ⟨b.x, b.y⟩ ⟨centerX, centerY⟩
  let maxDistance := min env.width env.height * 0.4
  let f1 : Vector2D :=
    if centerDistance > maxDistance then
      let centerForce :=
        (centerDistance - maxDistance) * PHYSICS_CONFIG_centeringForce
      let centerDirection := normalize ⟨centerX - b.x, centerY - b.y⟩
      ⟨fx0 + centerDirection.x * centerForce,
       fy0 + centerDirection.y * centerForce⟩
    else ⟨fx0, fy0⟩
  let r := separationPass b bs f1.x f1.y
  let fx2 := r.fx + (env.randX i - 0.5) * PHYSICS_CONFIG_randomForce
  let fy2 := r.fy + (env.randY i - 0.5) * PHYSICS_CONFIG_randomForce
  let b2 := r.b
  let vx1 := (b2.vx + fx2 * env.deltaTime * 0.1) * PHYSICS_CONFIG_damping
  let vy1 := (b2.vy + fy2 * env.deltaTime * 0.1) * PHYSICS_CONFIG_damping
  let speed := Real.sqrt (vx1 * vx1 + vy1 * vy1)
  let v2 : Vector2D :=
    if speed > PHYSICS_CONFIG_maxVelocity then
      ⟨vx1 / speed * PHYSICS_CONFIG_maxVelocity,
       vy1 / speed * PHYSICS_CONFIG_maxVelocity⟩
    else ⟨vx1, vy1⟩
  ({ b2 with
      vx := v2.x
      vy := v2.y
      x := b2.x + v2.x * env.deltaTime * 0.3
      y := b2.y + v2.y * env.deltaTime * 0.3 }, r.others)

/-- One axis of the soft boundary constraint (lines 295-313): returns the
constrained coordinate and the nudged velocity component. -/
def boundaryAxis (lo hi x v : ℝ) : ℝ × ℝ :=
  if x < lo then (max x (lo - 5), v + (lo - x) * 0.001)
  else if x > hi then (min x (hi + 5), v + (hi - x) * 0.001)
  else (x, v)

/-- The soft boundary handling of updatePhysics (lines 288-313), applied
to every bubble, dragged or free. -/
def applyBoundary (width height : ℝ) (b : Bubble) : Bubble :=
  let minX := b.radius + PHYSICS_CONFIG_boundaryPadding
  let maxX := width - b.radius - PHYSICS_CONFIG_boundaryPadding
  let minY := b.radius + PHYSICS_CONFIG_boundaryPadding
  let maxY := height - b.radius - PHYSICS_CONFIG_boundaryPadding
  let px := boundaryAxis minX maxX b.x b.vx
  let py := boundaryAxis minY maxY b.y b.vy
  { b with x := px.1, vx := px.2, y := py.1, vy := py.2 }

/-- The property smoothing of updatePhysics (lines 315-339); bs1 is the
current array state, used with the bubble's fresh volume for the live
maximum volume of line 332. -/
def smoothStep (bs1 : List Bubble) (i : ℕ) (b3 : Bubble) : Bubble :=
  let b4 := { b3 with
    currentSentiment := lerp b3.currentSentiment b3.targetSentiment
      PHYSICS_CONFIG_sentimentSmoothingSpeed
    currentVolume := lerp b3.currentVolume b3.targetVolume
      PHYSICS_CONFIG_volumeSmoothingSpeed }
  let b5 := { b4 with targetColor := getSentimentColor b4.currentSentiment }
  let b6 :=
    if b5.color ≠ b5.targetColor then
      { b5 with color :=
          blendColors b5.color b5.targetColor PHYSICS_CONFIG_colorSmoothingSpeed }
    else b5
  let maxVolume := maxWith1 ((bs1.set i b6).map Bubble.currentVolume)
  let b7 := { b6 with
    targetRadius := calculateRadius b6.currentVolume maxVolume }
  if |b7.targetRadius - b7.radius| > 0.1 then
    let nr := lerp b7.radius b7.targetRadius PHYSICS_CONFIG_radiusSmoothingSpeed
    { b7 with radius := nr, mass := nr * nr }
  else b7

/-- One iteration of the outer forEach of updatePhysics for the bubble at
array position i: drag or free movement, boundary handling, then property
smoothing, writing the result back at position i. -/
def stepAt (env : PhysEnv) (i : ℕ) (bs : List Bubble) : List Bubble :=
  match bs.get? i with
  | none => bs
  | some b =>
    let moved : Bubble × List Bubble :=
      if b.isDragging then (dragMove env b, bs) else freeMove env i b bs
    let b3 := applyBoundary env.width env.height moved.1
    let b8 := smoothStep moved.2 i b3
    (moved.2).set i b8

/-- The outer forEach of updatePhysics, by array position. -/
def updatePhysicsGo (env : PhysEnv) : ℕ → ℕ → List Bubble → List Bubble
  | 0, _, bs => bs
  | fuel + 1, i, bs => updatePhysicsGo env fuel (i + 1) (stepAt env i bs)

/-- updatePhysics (AdvancedBubbleCanvas.tsx lines 198-341): process every
bubble of the array snapshot in order. -/
def updatePhysics (env : PhysEnv) (bs : List Bubble) : List Bubble :=
  updatePhysicsGo env bs.length 0 bs

/-- Concrete tick environment of the C5 counterexample: 800×600 canvas,
pointer at (50, 300), clock and random draws fixed. -/
def envC5 : PhysEnv :=
  { deltaTime := 1000 / 60, time := 0, mouseX := 50, mouseY := 300,
    width := 800, height := 600, randX := fun _ => 0.5,
    randY := fun _ => 0.5 }

/-- Bubble A of the C5 counterexample: radius 80, being dragged toward the
left edge (drag offset 0, pointer at x = 50), neutral and fully settled
otherwise. -/
def bubbleA5 : Bubble :=
  { baseBubble with
    id := "A", topic := ⟨"A", 0, 100⟩, x := 300, y := 300, vx := 0, vy := 0,
    radius := 80, targetRadius := 80, color := "#6b7280",
    targetColor := "#6b7280", currentSentiment := 0, targetSentiment := 0,
    currentVolume := 100, targetVolume := 100, isDragging := true,
    dragOffsetX := 0, dragOffsetY := 0, mass := 6400, index := 0 }

/-- Bubble B of the C5 counterexample: radius 80, free, sitting at
(205, 300) so that it overlaps bubble A once A is clamped at x = 105. -/
def bubbleB5 : Bubble :=
  { baseBubble with
    id := "B", topic := ⟨"B", 0, 100⟩, x := 205, y := 300, vx := 0, vy := 0,
    radius := 80, targetRadius := 80, color := "#6b7280",
    targetColor := "#6b7280", currentSentiment := 0, targetSentiment := 0,
    currentVolume := 100, targetVolume := 100, isDragging := false,
    mass := 6400, index := 1 }

end

/-- Helper: evaluate a real square root from an exhibited square. -/
theorem sqrt_eval {a b : ℝ} (hb : 0 ≤ b) (h : b ^ 2 = a) : Real.sqrt a = b := by
  rw [← h, Real.sqrt_sq hb]

/-- Helper: the square root of 25. -/
theorem sqrt_25 : Real.sqrt 25 = 5 := sqrt_eval (by norm_num) (by norm_num)

/-- Helper: the square root of 100. -/
theorem sqrt_100 : Real.sqrt 100 = 10 := sqrt_eval (by norm_num) (by norm_num)

/-- Helper: the square root of 10000. -/
theorem sqrt_10000 : Real.sqrt 10000 = 100 :=
  sqrt_eval (by norm_num) (by norm_num)

/-- Helper: the square root of 38025. -/
theorem sqrt_38025 : Real.sqrt 38025 = 195 :=
  sqrt_eval (by norm_num) (by norm_num)

/-- Helper: on the valid domain the radius formula holds and its value
stays between the configured minimum and maximum radii. -/
theorem calculateRadius_range : ∀ M v : ℝ, 1 ≤ M → 0 ≤ v → v ≤ M →
    calculateRadius v M =
      PHYSICS_CONFIG_minRadius +
        (PHYSICS_CONFIG_maxRadius - PHYSICS_CONFIG_minRadius) *
          Real.sqrt (v / M) ∧
    PHYSICS_CONFIG_minRadius ≤ calculateRadius v M ∧
    calculateRadius v M ≤ PHYSICS_CONFIG_maxRadius := by
  intro M v hM hv hvM
  have hMpos : (0 : ℝ) < M := lt_of_lt_of_le one_pos hM
  have hratio0 : 0 ≤ v / M := div_nonneg hv (le_of_lt hMpos)
  have hratio1 : v / M ≤ 1 := (div_le_one hMpos).mpr hvM
  have hs0 : 0 ≤ Real.sqrt (v / M) := Real.sqrt_nonneg _
  have hs1 : Real.sqrt (v / M) ≤ 1 := by
    rw [show (1 : ℝ) = Real.sqrt 1 by rw [Real.sqrt_one]]
    exact Real.sqrt_le_sqrt hratio1
  refine ⟨rfl, ?_, ?_⟩
  · unfold calculateRadius PHYSICS_CONFIG_minRadius PHYSICS_CONFIG_maxRadius
    nlinarith
  · unfold calculateRadius PHYSICS_CONFIG_minRadius PHYSICS_CONFIG_maxRadius
    nlinarith

/-- C1: for maximum observed volume M ≥ 1 and any volume v with 0 ≤ v ≤ M,
calculateRadius v M equals minRadius + (maxRadius − minRadius) · sqrt (v / M)
and lies in [minRadius, maxRadius]; in particular calculateRadius 200 200 is
exactly maxRadius and calculateRadius 50 200 is
minRadius + (maxRadius − minRadius) · 0.5. -/
theorem claim_C1 :
    (∀ M v : ℝ, 1 ≤ M → 0 ≤ v → v ≤ M →
      calculateRadius v M =
        PHYSICS_CONFIG_minRadius +
          (PHYSICS_CONFIG_maxRadius - PHYSICS_CONFIG_minRadius) *
            Real.sqrt (v / M) ∧
      PHYSICS_CONFIG_minRadius ≤ calculateRadius v M ∧
      calculateRadius v M ≤ PHYSICS_CONFIG_maxRadius) ∧
    calculateRadius 200 200 = PHYSICS_CONFIG_maxRadius ∧
    calculateRadius 50 200 =
      PHYSICS_CONFIG_minRadius +
        (PHYSICS_CONFIG_maxRadius - PHYSICS_CONFIG_minRadius) * 0.5 := by
  refine ⟨calculateRadius_range, ?_, ?_⟩
  · have h1 : Real.sqrt ((200 : ℝ) / 200) = 1 := by
      rw [show ((200 : ℝ) / 200) = 1 by norm_num, Real.sqrt_one]
    unfold calculateRadius PHYSICS_CONFIG_minRadius PHYSICS_CONFIG_maxRadius
    rw [h1]; norm_num
  · have h2 : Real.sqrt ((50 : ℝ) / 200) = 0.5 := by
      apply sqrt_eval <;> norm_num
    unfold calculateRadius PHYSICS_CONFIG_minRadius PHYSICS_CONFIG_maxRadius
    rw [h2]

/-- C1 witness: the general part of claim_C1 instantiated at M = 200, v = 50. -/
theorem claim_C1_witness :
    PHYSICS_CONFIG_minRadius ≤ calculateRadius 50 200 ∧
    calculateRadius 50 200 ≤ PHYSICS_CONFIG_maxRadius :=
  (claim_C1.1 200 50 (by norm_num) (by norm_num) (by norm_num)).2

/-- C6: for a fixed maximum observed volume M ≥ 1 the radius mapping is
monotone in volume, and every volume between 0 and M yields a radius inside
[minRadius, maxRadius]. -/
theorem claim_C6 :
    ∀ M vA vB : ℝ, 1 ≤ M → 0 ≤ vB → vB < vA →
      (calculateRadius vB M ≤ calculateRadius vA M ∧
       (vA ≤ M →
         PHYSICS_CONFIG_minRadius ≤ calculateRadius vA M ∧
         calculateRadius vA M ≤ PHYSICS_CONFIG_maxRadius) ∧
       (vB ≤ M →
         PHYSICS_CONFIG_minRadius ≤ calculateRadius vB M ∧
         calculateRadius vB M ≤ PHYSICS_CONFIG_maxRadius)) := by
  intro M vA vB hM hvB hlt
  have hMpos : (0 : ℝ) < M := lt_of_lt_of_le one_pos hM
  have hdiv : vB / M ≤ vA / M :=
    (div_le_div_iff_of_pos_right hMpos).mpr (le_of_lt hlt)
  refine ⟨?_, ?_, ?_⟩
  · have hs : Real.sqrt (vB / M) ≤ Real.sqrt (vA / M) := Real.sqrt_le_sqrt hdiv
    unfold calculateRadius PHYSICS_CONFIG_minRadius PHYSICS_CONFIG_maxRadius
    nlinarith
  · intro hvAM
    exact (calculateRadius_range M vA hM (le_trans hvB (le_of_lt hlt)) hvAM).2
  · intro hvBM
    exact (calculateRadius_range M vB hM hvB hvBM).2

/-- C6 witness: monotonicity and range at M = 4, vB = 1, vA = 4. -/
theorem claim_C6_witness :
    calculateRadius 1 4 ≤ calculateRadius 4 4 ∧
    PHYSICS_CONFIG_minRadius ≤ calculateRadius 4 4 ∧
    calculateRadius 4 4 ≤ PHYSICS_CONFIG_maxRadius := by
  have h := claim_C6 4 4 1 (by norm_num) (by norm_num) (by norm_num)
  exact ⟨h.1, h.2.1 (by norm_num)⟩

/-- C7: one smoothing step with the configured sentiment speed 0.02 strictly
decreases the distance to a fixed target and never flips the sign of
(target − current), so convergence is monotonic with no overshoot. -/
theorem claim_C7 :
    ∀ current target : ℝ, current ≠ target →
      |lerp current target PHYSICS_CONFIG_sentimentSmoothingSpeed - target| <
        |current - target| ∧
      0 < (target - lerp current target PHYSICS_CONFIG_sentimentSmoothingSpeed) *
            (target - current) := by
  intro c t hne
  have hstep : lerp c t PHYSICS_CONFIG_sentimentSmoothingSpeed - t
      = (c - t) * 0.98 := by
    unfold lerp PHYSICS_CONFIG_sentimentSmoothingSpeed
    ring
  have hct : c - t ≠ 0 := sub_ne_zero.mpr hne
  have habs : (0 : ℝ) < |c - t| := abs_pos.mpr hct
  constructor
  · rw [hstep, abs_mul]
    have : |(0.98 : ℝ)| = 0.98 := by norm_num [abs_of_nonneg]
    rw [this]
    nlinarith
  · have h2 : t - lerp c t PHYSICS_CONFIG_sentimentSmoothingSpeed
        = (t - c) * 0.98 := by
      unfold lerp PHYSICS_CONFIG_sentimentSmoothingSpeed
      ring
    rw [h2]
    have htc : t - c ≠ 0 := sub_ne_zero.mpr (Ne.symm hne)
    have hsq : 0 < (t - c) ^ 2 := by
      rcases htc.lt_or_lt with h | h <;> nlinarith
    nlinarith

/-- C7 witness: the smoothing contraction at current = 0, target = 1. -/
theorem claim_C7_witness :
    |lerp 0 1 PHYSICS_CONFIG_sentimentSmoothingSpeed - 1| < |(0 : ℝ) - 1| ∧
    0 < (1 - lerp 0 1 PHYSICS_CONFIG_sentimentSmoothingSpeed) * ((1 : ℝ) - 0) :=
  claim_C7 0 1 (by norm_num)

/-- C3 counterexample: the claim says the color varies (via interpolation
between two distinct endpoint colors) with sentiment inside the positive
band, but getSentimentColor returns the same flat color for 0.2 and 0.4. -/
theorem claim_C3_counterexample :
    ¬ (∀ s₁ s₂ : ℝ, 0.1 < s₁ → s₁ < s₂ → s₂ ≤ 0.5 →
        getSentimentColor s₁ ≠ getSentimentColor s₂) := by
  intro h
  apply h 0.2 0.4 (by norm_num) (by norm_num) (by norm_num)
  unfold getSentimentColor
  rw [if_neg (by norm_num), if_pos (by norm_num),
      if_neg (by norm_num), if_pos (by norm_num)]

/-- C3 (amended): getSentimentColor partitions [-1,1] into five bands and
returns one fixed flat color per band (no within-band interpolation);
sentiment 0 maps to the neutral color and 1 and −1 map to the two extreme
band colors. -/
theorem claim_C3 :
    (∀ s : ℝ,
      (0.5 < s → getSentimentColor s = "#15803d") ∧
      (0.1 < s → s ≤ 0.5 → getSentimentColor s = "#22c55e") ∧
      (-0.1 ≤ s → s ≤ 0.1 → getSentimentColor s = "#6b7280") ∧
      (-0.5 ≤ s → s < -0.1 → getSentimentColor s = "#ef4444") ∧
      (s < -0.5 → getSentimentColor s = "#991b1b")) ∧
    getSentimentColor 0 = "#6b7280" ∧
    getSentimentColor 1 = "#15803d" ∧
    getSentimentColor (-1) = "#991b1b" := by
  have hband : ∀ s : ℝ,
      (0.5 < s → getSentimentColor s = "#15803d") ∧
      (0.1 < s → s ≤ 0.5 → getSentimentColor s = "#22c55e") ∧
      (-0.1 ≤ s → s ≤ 0.1 → getSentimentColor s = "#6b7280") ∧
      (-0.5 ≤ s → s < -0.1 → getSentimentColor s = "#ef4444") ∧
      (s < -0.5 → getSentimentColor s = "#991b1b") := by
    intro s
    refine ⟨?_, ?_, ?_, ?_, ?_⟩
    · intro h1
      unfold getSentimentColor
      rw [if_pos (by linarith)]
    · intro h1 h2
      unfold getSentimentColor
      rw [if_neg (by linarith), if_pos (by linarith)]
    · intro h1 h2
      unfold getSentimentColor
      rw [if_neg (by linarith), if_neg (by linarith),
          if_neg (by linarith), if_neg (by linarith)]
    · intro h1 h2
      unfold getSentimentColor
      rw [if_neg (by linarith), if_neg (by linarith),
          if_neg (by linarith), if_pos (by linarith)]
    · intro h1
      unfold getSentimentColor
      rw [if_neg (by linarith), if_neg (by linarith), if_pos (by linarith)]
  refine ⟨hband, ?_, ?_, ?_⟩
  · exact (hband 0).2.2.1 (by norm_num) (by norm_num)
  · exact (hband 1).1 (by norm_num)
  · exact (hband (-1)).2.2.2.2 (by norm_num)

/-- C3 witness: the amended band theorem instantiated at sentiment 0.3. -/
theorem claim_C3_witness : getSentimentColor 0.3 = "#22c55e" :=
  (claim_C3.1 0.3).2.1 (by norm_num) (by norm_num)

/-- C9: the maximum volume fed to the radius ratio is always at least 1
(so the divisor is never 0), and normalize returns the zero vector when the
input magnitude is exactly 0 instead of dividing by it. -/
theorem claim_C9 :
    (∀ xs : List ℝ, 1 ≤ maxWith1 xs) ∧
    (∀ v : Vector2D, Real.sqrt (v.x * v.x + v.y * v.y) = 0 →
      normalize v = ⟨0, 0⟩) := by
  constructor
  · intro xs
    induction xs with
    | nil => simp [maxWith1]
    | cons a t ih =>
      simp only [maxWith1, List.foldr] at *
      exact le_max_of_le_right ih
  · intro v h
    simp [normalize, h]

/-- C9 witness: a list with only nonpositive volumes still yields a maximum
of at least 1, and the zero vector normalizes to the zero vector. -/
theorem claim_C9_witness :
    1 ≤ maxWith1 [-3, 0] ∧ normalize ⟨0, 0⟩ = (⟨0, 0⟩ : Vector2D) :=
  ⟨claim_C9.1 [-3, 0],
   claim_C9.2 ⟨0, 0⟩ (by
    simp [Real.sqrt_zero])⟩

/-- Helper: Math.round is the identity on a natural number. -/
theorem jsRound_natCast (n : ℕ) : jsRound (n : ℚ) = n := by
  unfold jsRound
  apply Int.floor_eq_iff.mpr
  constructor
  · push_cast; linarith
  · push_cast; linarith

/-- Helper: peeling the least-significant hex digit off a positional
rendering. -/
theorem natToHex_peel (q d : ℕ) (hq : 0 < q) (hd : d < 16) :
    natToHex (16 * q + d) = natToHex q ++ [Nat.digitChar d] := by
  rw [natToHex]
  rw [dif_neg (by omega)]
  rw [show (16 * q + d) / 16 = q by omega, show (16 * q + d) % 16 = d by omega]

/-- Helper: the hex rendering of 1. -/
theorem natToHex_one : natToHex 1 = ['1'] := by
  rw [natToHex]
  rfl

/-- Helper: hexDigit? inverts Nat.digitChar on hex digit values. -/
theorem hexDigit?_digitChar : ∀ d < 16, hexDigit? (Nat.digitChar d) = some d := by
  decide

/-- Helper: the seven hex digits of 16777216 + r·65536 + g·256 + b for
byte-sized components. -/
theorem natToHex_bytes (r g b : ℕ) (hr : r < 256) (hg : g < 256)
    (hb : b < 256) :
    natToHex (16777216 + r * 65536 + g * 256 + b) =
      ['1', Nat.digitChar (r / 16), Nat.digitChar (r % 16),
        Nat.digitChar (g / 16), Nat.digitChar (g % 16),
        Nat.digitChar (b / 16), Nat.digitChar (b % 16)] := by
  rw [show 16777216 + r * 65536 + g * 256 + b
      = 16 * (1048576 + r * 4096 + g * 16 + b / 16) + b % 16 by omega]
  rw [natToHex_peel _ _ (by omega) (by omega)]
  rw [show 1048576 + r * 4096 + g * 16 + b / 16
      = 16 * (65536 + r * 256 + g) + b / 16 by omega]
  rw [natToHex_peel _ _ (by omega) (by omega)]
  rw [show 65536 + r * 256 + g
      = 16 * (4096 + r * 16 + g / 16) + g % 16 by omega]
  rw [natToHex_peel _ _ (by omega) (by omega)]
  rw [show 4096 + r * 16 + g / 16
      = 16 * (256 + r) + g / 16 by omega]
  rw [natToHex_peel _ _ (by omega) (by omega)]
  rw [show 256 + r = 16 * (16 + r / 16) + r % 16 by omega]
  rw [natToHex_peel _ _ (by omega) (by omega)]
  rw [show 16 + r / 16 = 16 * 1 + r / 16 by omega]
  rw [natToHex_peel _ _ (by omega) (by omega)]
  rw [natToHex_one]
  rfl

/-- C10: hexToRgb inverts rgbToHex on byte-valued components; blendColors
with factor 0 returns the canonical hex form of the first color and with
factor 1 the canonical hex form of the second; a string the hex pattern
does not match parses to black, so blendColors is total on strings. -/
theorem claim_C10 :
    (∀ r g b : ℕ, r ≤ 255 → g ≤ 255 → b ≤ 255 →
      hexToRgb (rgbToHex r g b) = ⟨r, g, b⟩) ∧
    (∀ c1 c2 : String,
      blendColors c1 c2 0 =
        rgbToHex (hexToRgb c1).r (hexToRgb c1).g (hexToRgb c1).b ∧
      blendColors c1 c2 1 =
        rgbToHex (hexToRgb c2).r (hexToRgb c2).g (hexToRgb c2).b) ∧
    (∀ s : String, hexMatch? s = none → hexToRgb s = ⟨0, 0, 0⟩) := by
  refine ⟨?_, ?_, ?_⟩
  · intro r g b hr hg hb
    have hjr : (jsRound (r : ℚ)).toNat = r := by rw [jsRound_natCast]; rfl
    have hjg : (jsRound (g : ℚ)).toNat = g := by rw [jsRound_natCast]; rfl
    have hjb : (jsRound (b : ℚ)).toNat = b := by rw [jsRound_natCast]; rfl
    have hd1 := hexDigit?_digitChar (r / 16) (by omega)
    have hd2 := hexDigit?_digitChar (r % 16) (by omega)
    have hd3 := hexDigit?_digitChar (g / 16) (by omega)
    have hd4 := hexDigit?_digitChar (g % 16) (by omega)
    have hd5 := hexDigit?_digitChar (b / 16) (by omega)
    have hd6 := hexDigit?_digitChar (b % 16) (by omega)
    simp only [rgbToHex]
    rw [hjr, hjg, hjb, natToHex_bytes r g b (by omega) (by omega) (by omega)]
    unfold hexToRgb hexMatch?
    simp only [List.drop, hd1, hd2, hd3, hd4, hd5, hd6, Option.getD_some]
    congr 1 <;> omega
  · intro c1 c2
    have e0 : ∀ x y : ℚ, lerpQ x y 0 = x := by
      intro x y; unfold lerpQ; ring
    have e1 : ∀ x y : ℚ, lerpQ x y 1 = y := by
      intro x y; unfold lerpQ; ring
    constructor
    · simp only [blendColors, e0]
    · simp only [blendColors, e1]
  · intro s h
    unfold hexToRgb
    rw [h]
    rfl

/-- C10 witness: the round trip at white, a blend at factor 0, and an
invalid string parsing to black. -/
theorem claim_C10_witness :
    hexToRgb (rgbToHex 255 255 255) = ⟨255, 255, 255⟩ ∧
    blendColors "#15803d" "#991b1b" 0 =
      rgbToHex (hexToRgb "#15803d").r (hexToRgb "#15803d").g
        (hexToRgb "#15803d").b ∧
    hexToRgb "nope" = ⟨0, 0, 0⟩ := by
  refine ⟨?_, (claim_C10.2.1 "#15803d" "#991b1b").1, ?_⟩
  · simpa using claim_C10.1 255 255 255 (by norm_num) (by norm_num) (by norm_num)
  · exact claim_C10.2.2 "nope" (by decide)

/-- C2: evaluation at the failing input. The reconciliation preserves a
surviving bubble's position and velocity, but the or-default
`existingBubble?.index || index` treats a stored index 0 as absent: with an
existing bubble A of index 0 and new snapshot [B, A], the surviving bubble
A is reassigned index 1 (its new forEach position) although the source
comments and the spec require the index to be preserved. -/
theorem claim_C2_bug :
    ((initializeBubbles [⟨"B", 0, 100⟩, ⟨"A", 0, 100⟩]
        [{ baseBubble with
            id := "A", x := 100, y := 100, vx := 0.25,
            vy := -0.5, index := 0 }]
        800 600 (fun _ => 0.5) (fun _ => 0.5) 0).get? 1).map
      (fun b => (b.index, b.x, b.y, b.vx, b.vy))
      = some (1, 100, 100, 0.25, -0.5) := by
  simp only [initializeBubbles, initBubblesGo, initBubble, mapGet,
    baseBubble, List.get?]
  norm_num [jsOr, jsOrNat]

/-- C4: evaluation at the failing input. The or-default
`existingBubble?.currentSentiment || topic.sentiment` treats a stored
current sentiment of exactly 0 as absent, so reconciliation jumps it
directly to the new snapshot's sentiment 0.5, while the nonzero stored
current volume 50 is preserved. -/
theorem claim_C4_bug :
    ((initializeBubbles [⟨"A", 0.5, 100⟩]
        [{ baseBubble with
            id := "A", currentSentiment := 0,
            targetSentiment := 0.2, currentVolume := 50 }]
        800 600 (fun _ => 0.5) (fun _ => 0.5) 0).get? 0).map
      (fun b => (b.currentSentiment, b.currentVolume))
      = some (0.5, 50) := by
  simp only [initializeBubbles, initBubblesGo, initBubble, mapGet,
    baseBubble, List.get?]
  norm_num [jsOr, jsOrNat]

/-- C8 counterexample: the pointer at (110, 300) lies inside both bubbles
A (first inserted, drawn first, bottom of the z-order) and B (last
inserted, drawn last, topmost); the claim says the topmost bubble B is
chosen, but the loop returns the bottom-most bubble A. -/
theorem claim_C8_counterexample :
    hitTest ⟨110, 300⟩
        [{ baseBubble with
            id := "A", x := 100, y := 300, radius := 50 },
         { baseBubble with
            id := "B", x := 120, y := 300, radius := 50 }]
      = some { baseBubble with
            id := "A", x := 100, y := 300, radius := 50 } ∧
    distance ⟨110, 300⟩ ⟨120, 300⟩ ≤ 50 ∧
    ("A" : String) ≠ "B" := by
  have hd2 : distance (⟨110, 300⟩ : Vector2D) ⟨120, 300⟩ = 10 := by
    simp only [distance]
    rw [show ((110 : ℝ) - 120) * ((110 : ℝ) - 120) +
        ((300 : ℝ) - 300) * ((300 : ℝ) - 300) = 100 by norm_num]
    exact sqrt_100
  have hd1 : distance (⟨110, 300⟩ : Vector2D) ⟨100, 300⟩ = 10 := by
    simp only [distance]
    rw [show ((110 : ℝ) - 100) * ((110 : ℝ) - 100) +
        ((300 : ℝ) - 300) * ((300 : ℝ) - 300) = 100 by norm_num]
    exact sqrt_100
  refine ⟨?_, by rw [hd2]; norm_num, by decide⟩
  rw [hitTest, if_pos (by rw [show distance ⟨110, 300⟩ _ =
    distance (⟨110, 300⟩ : Vector2D) ⟨100, 300⟩ from rfl, hd1]; norm_num)]

/-- C8 (amended): a pointer point hits a bubble iff its Euclidean distance
to the bubble's center is at most the bubble's current radius; when the
point lies inside several overlapping bubbles the loop selects the
earliest bubble in map insertion order — the bottom-most of the draw
order — not the most recently drawn one. -/
theorem claim_C8 :
    ∀ (p : Vector2D) (bs : List Bubble),
      (hitTest p bs = none ↔ ∀ b ∈ bs, b.radius < distance p ⟨b.x, b.y⟩) ∧
      (∀ b, hitTest p bs = some b →
        distance p ⟨b.x, b.y⟩ ≤ b.radius ∧
        ∃ l1 l2, bs = l1 ++ b :: l2 ∧
          ∀ b' ∈ l1, b'.radius < distance p ⟨b'.x, b'.y⟩) := by
  intro p bs
  induction bs with
  | nil =>
    constructor
    · simp [hitTest]
    · intro b hb
      simp [hitTest] at hb
  | cons a t ih =>
    by_cases hd : distance p ⟨a.x, a.y⟩ ≤ a.radius
    · constructor
      · constructor
        · intro h
          rw [hitTest, if_pos hd] at h
          exact absurd h (by simp)
        · intro h
          exact absurd hd (not_le.mpr (h a (by simp)))
      · intro b hb
        rw [hitTest, if_pos hd] at hb
        injection hb with hba
        subst hba
        exact ⟨hd, [], t, rfl, by simp⟩
    · have hstep : hitTest p (a :: t) = hitTest p t := by
        rw [hitTest, if_neg hd]
      constructor
      · rw [hstep]
        constructor
        · intro h b hb
          rcases List.mem_cons.mp hb with rfl | hbt
          · exact not_le.mp hd
          · exact ih.1.mp h b hbt
        · intro h
          exact ih.1.mpr (fun b hb => h b (List.mem_cons_of_mem a hb))
      · intro b hb
        rw [hstep] at hb
        rcases ih.2 b hb with ⟨h1, l1, l2, heq, hall⟩
        refine ⟨h1, a :: l1, l2, by rw [heq]; rfl, ?_⟩
        intro b' hb'
        rcases List.mem_cons.mp hb' with rfl | hbl
        · exact not_le.mp hd
        · exact hall b' hbl

/-- C8 witness: the characterization applied to the empty bubble list and
to a singleton list whose bubble contains the origin. -/
theorem claim_C8_witness :
    hitTest ⟨0, 0⟩ ([] : List Bubble) = none ∧
    distance ⟨0, 0⟩ ⟨3, 4⟩ ≤ (50 : ℝ) := by
  have h5 : distance (⟨0, 0⟩ : Vector2D) ⟨3, 4⟩ = 5 := by
    simp only [distance]
    rw [show ((0 : ℝ) - 3) * ((0 : ℝ) - 3) +
        ((0 : ℝ) - 4) * ((0 : ℝ) - 4) = 25 by norm_num]
    exact sqrt_25
  constructor
  · exact (claim_C8 ⟨0, 0⟩ []).1.mpr (by simp)
  · have hsome : hitTest ⟨0, 0⟩
        [{ baseBubble with x := 3, y := 4, radius := 50 }]
        = some { baseBubble with x := 3, y := 4, radius := 50 } := by
      rw [hitTest, if_pos (by rw [show distance ⟨0, 0⟩ _ =
        distance (⟨0, 0⟩ : Vector2D) ⟨3, 4⟩ from rfl, h5]; norm_num)]
    exact ((claim_C8 ⟨0, 0⟩
      [{ baseBubble with x := 3, y := 4, radius := 50 }]).2 _ hsome).1

/-- Helper: one boundary axis keeps the coordinate within 5 units of
overshoot when the padded interval is nonempty. -/
theorem boundaryAxis_mem (lo hi x v : ℝ) (hlh : lo ≤ hi) :
    lo - 5 ≤ (boundaryAxis lo hi x v).1 ∧
    (boundaryAxis lo hi x v).1 ≤ hi + 5 := by
  unfold boundaryAxis
  split_ifs with h1 h2
  · exact ⟨le_max_right _ _, max_le (by linarith) (by linarith)⟩
  · exact ⟨le_min (by linarith [not_lt.mp h1]) (by linarith),
      min_le_right _ _⟩
  · exact ⟨by linarith [not_lt.mp h1], by linarith [not_lt.mp h2]⟩

/-- Helper: the boundary velocity nudge on penetration is proportional to
the penetration depth. -/
theorem boundaryAxis_nudge (lo hi x v : ℝ) (h : x < lo) :
    (boundaryAxis lo hi x v).2 = v + (lo - x) * 0.001 := by
  unfold boundaryAxis
  rw [if_pos h]

/-- C5 (amended): immediately after a bubble's own boundary handling its
center lies within 5 units of overshoot past the padded boundary on both
axes (provided the padded interval is nonempty), and on penetration the
velocity is nudged inward proportionally to the penetration depth rather
than the position being hard-clamped to the padded boundary; however the
overlap separation push of a bubble processed later in the same tick can
move an already-constrained bubble further out, so the 5-unit bound need
not hold for every bubble at the end of a multi-bubble tick (see the
counterexample). -/
theorem claim_C5 :
    ∀ (width height : ℝ) (b : Bubble),
      b.radius + PHYSICS_CONFIG_boundaryPadding ≤
        width - b.radius - PHYSICS_CONFIG_boundaryPadding →
      b.radius + PHYSICS_CONFIG_boundaryPadding ≤
        height - b.radius - PHYSICS_CONFIG_boundaryPadding →
      (b.radius + PHYSICS_CONFIG_boundaryPadding - 5 ≤
          (applyBoundary width height b).x ∧
        (applyBoundary width height b).x ≤
          width - b.radius - PHYSICS_CONFIG_boundaryPadding + 5 ∧
        b.radius + PHYSICS_CONFIG_boundaryPadding - 5 ≤
          (applyBoundary width height b).y ∧
        (applyBoundary width height b).y ≤
          height - b.radius - PHYSICS_CONFIG_boundaryPadding + 5) ∧
      (b.x < b.radius + PHYSICS_CONFIG_boundaryPadding →
        (applyBoundary width height b).vx =
          b.vx + (b.radius + PHYSICS_CONFIG_boundaryPadding - b.x) * 0.001) := by
  intro width height b hw hh
  have hx := boundaryAxis_mem (b.radius + PHYSICS_CONFIG_boundaryPadding)
    (width - b.radius - PHYSICS_CONFIG_boundaryPadding) b.x b.vx hw
  have hy := boundaryAxis_mem (b.radius + PHYSICS_CONFIG_boundaryPadding)
    (height - b.radius - PHYSICS_CONFIG_boundaryPadding) b.y b.vy hh
  refine ⟨⟨hx.1, hx.2, hy.1, hy.2⟩, ?_⟩
  intro hpen
  exact boundaryAxis_nudge _ _ _ _ hpen

/-- C5 witness: the amended boundary theorem at a bubble of radius 80 at
(50, 300) with zero velocity on a 800×600 canvas. -/
theorem claim_C5_witness :
    ((80 : ℝ) + PHYSICS_CONFIG_boundaryPadding - 5 ≤
        (applyBoundary 800 600
          { baseBubble with radius := 80, x := 50, y := 300 }).x ∧
      (applyBoundary 800 600
          { baseBubble with radius := 80, x := 50, y := 300 }).x ≤
        800 - 80 - PHYSICS_CONFIG_boundaryPadding + 5 ∧
      (80 : ℝ) + PHYSICS_CONFIG_boundaryPadding - 5 ≤
        (applyBoundary 800 600
          { baseBubble with radius := 80, x := 50, y := 300 }).y ∧
      (applyBoundary 800 600
          { baseBubble with radius := 80, x := 50, y := 300 }).y ≤
        600 - 80 - PHYSICS_CONFIG_boundaryPadding + 5) ∧
    (applyBoundary 800 600
        { baseBubble with radius := 80, x := 50, y := 300 }).vx =
      0 + ((80 : ℝ) + PHYSICS_CONFIG_boundaryPadding - 50) * 0.001 := by
  have h := claim_C5 800 600
    { baseBubble with radius := 80, x := 50, y := 300 }
    (by norm_num [PHYSICS_CONFIG_boundaryPadding])
    (by norm_num [PHYSICS_CONFIG_boundaryPadding])
  exact ⟨h.1, h.2 (by norm_num [PHYSICS_CONFIG_boundaryPadding])⟩

/-- C5 counterexample: after one full tick of updatePhysics on the 800×600
canvas, bubble A (radius 80, dragged to pointer x = 50) ends at
x = 104.4, strictly below the claimed lower bound
radius + boundaryPadding − 5 = 105: A's own boundary handling clamps it to
105, but bubble B, processed later in the same tick while overlapping A,
pushes A a further 0.6 units outward. -/
theorem claim_C5_counterexample :
    ((updatePhysics envC5 [bubbleA5, bubbleB5]).get? 0).map
        (fun b => (b.x, b.radius)) = some (104.4, 80) ∧
    (104.4 : ℝ) < 80 + PHYSICS_CONFIG_boundaryPadding - 5 := by
  have h0 : stepAt envC5 0 [bubbleA5, bubbleB5] =
      [{ bubbleA5 with x := 105, vx := 0.06 }, bubbleB5] := by
    simp only [stepAt, envC5, dragMove, applyBoundary, boundaryAxis,
      smoothStep, lerp, getSentimentColor, maxWith1, calculateRadius,
      List.get?, List.set, List.map, List.foldr, bubbleA5, bubbleB5,
      baseBubble]
    norm_num [Real.sqrt_one, max_def, min_def, abs_zero,
      PHYSICS_CONFIG_boundaryPadding, PHYSICS_CONFIG_minRadius,
      PHYSICS_CONFIG_maxRadius, PHYSICS_CONFIG_sentimentSmoothingSpeed,
      PHYSICS_CONFIG_volumeSmoothingSpeed, PHYSICS_CONFIG_radiusSmoothingSpeed]
  have h1 : (stepAt envC5 1
        [{ bubbleA5 with x := 105, vx := 0.06 }, bubbleB5]).get? 0 =
      some { bubbleA5 with x := 104.4, vx := 0.06 } := by
    simp only [stepAt, envC5, freeMove, separationPass, normalize, distance,
      smoothStep, lerp, getSentimentColor, maxWith1, calculateRadius,
      List.get?, List.set, List.map, List.foldr, bubbleA5, bubbleB5,
      baseBubble]
    have hne : ¬ ("A" : String) = "B" := by decide
    norm_num [if_neg hne, Real.sqrt_one, sqrt_10000, sqrt_38025, max_def,
      min_def, abs_zero, PHYSICS_CONFIG_boundaryPadding,
      PHYSICS_CONFIG_minRadius, PHYSICS_CONFIG_maxRadius,
      PHYSICS_CONFIG_sentimentSmoothingSpeed,
      PHYSICS_CONFIG_volumeSmoothingSpeed,
      PHYSICS_CONFIG_radiusSmoothingSpeed, PHYSICS_CONFIG_repulsionDistance]
  constructor
  · have hu : updatePhysics envC5 [bubbleA5, bubbleB5] =
        stepAt envC5 1 (stepAt envC5 0 [bubbleA5, bubbleB5]) := rfl
    rw [hu, h0, h1]
    norm_num [bubbleA5, baseBubble]
  · norm_num [PHYSICS_CONFIG_boundaryPadding]

end MacroSentiment
